import Mathlib

set_option maxRecDepth 8000

/-!
Verification of the EZModbus pico-sdk example harness.

Source files embedded here:
  * `examples/pico-sdk/modbus_echo_server.py` — a pymodbus TCP echo server
    whose holding-register bank is a `LoggingDataBlock` wrapping
    `ModbusSequentialDataBlock`; the other three banks are plain
    `ModbusSequentialDataBlock`s.
  * `examples/pico-sdk/modbus_client_tester.py` — a fixed test sequence run
    against a remote slave, with a `TestResult` recorder and a process
    exit code of 0 exactly when every executed case passed.

The pymodbus library itself is not part of the repository, so the register
store semantics (validation, slicing, updating) are modelled from the spec
(section 4.1) and each such definition says so in its doc comment.  All
tester-side definitions are translated directly from the Python source.
-/

/-- Modbus exception codes used by the register store (spec section 3,
section 4.1). -/
inductive ExceptionCode where
  | illegalFunction
  | illegalDataAddress
  | illegalDataValue
  | slaveDeviceFailure
deriving DecidableEq

/-- A register bank: an ordered fixed-length sequence of register values,
addressed 0..N-1 (spec section 3, RegisterBank).  Values are naturals;
uint16 range is imposed as a hypothesis where a claim mentions it. -/
structure Bank where
  values : List Nat
deriving DecidableEq

/-- Protocol maximum register count for a read (spec section 4.1). -/
def MAX_READ_COUNT : Nat := 125

/-- Protocol maximum register count for a multi-register write (spec
section 4.1). -/
def MAX_WRITE_COUNT : Nat := 123

/-- Modelled from the spec: the bounds validation of the register store
(pymodbus `validate` is not under src/).  A range is legal when the start
address is nonnegative and `address + count` does not exceed the bank
length (spec section 4.1). -/
def Bank.validRange (b : Bank) (addr : Int) (count : Nat) : Bool :=
  decide (0 ≤ addr) && decide (addr + (count : Int) ≤ (b.values.length : Int))

/-- Modelled from the spec: the raw value slice returned by
`ModbusSequentialDataBlock.getValues` (not under src/): `count` values in
address order starting at `addr` (spec section 4.1). -/
def Bank.getRaw (b : Bank) (addr : Int) (count : Nat) : List Nat :=
  (b.values.drop addr.toNat).take count

/-- Modelled from the spec: the raw in-place update performed by
`ModbusSequentialDataBlock.setValues` (not under src/): the values are
applied at `addr..addr+len-1`, the rest of the bank is untouched. -/
def Bank.setRaw (b : Bank) (addr : Int) (vals : List Nat) : Bank :=
  ⟨b.values.take addr.toNat ++ vals ++ b.values.drop (addr.toNat + vals.length)⟩

/-- Modelled from the spec: `read(bankKind, startAddress, count)` of the
register store (spec section 4.1).  Fails with ILLEGAL_DATA_ADDRESS when
the start address is negative, the range exceeds the bank length, the
count is 0, or the count exceeds the protocol maximum; otherwise returns
exactly `count` values in address order. -/
def Bank.read (b : Bank) (addr : Int) (count : Nat) :
    Except ExceptionCode (List Nat) :=
  if b.validRange addr count && decide (count ≠ 0) &&
      decide (count ≤ MAX_READ_COUNT) then
    .ok (b.getRaw addr count)
  else
    .error .illegalDataAddress

/-- Modelled from the spec: `write(bankKind, startAddress, values)` of the
register store (spec section 4.1).  Fails with ILLEGAL_DATA_ADDRESS under
the same bound check applied to `len(values)`, with ILLEGAL_DATA_VALUE
when `len(values)` exceeds the protocol maximum; on success returns the
updated bank, on failure the bank is unchanged. -/
def Bank.write (b : Bank) (addr : Int) (vals : List Nat) :
    Except ExceptionCode Unit × Bank :=
  if !(b.validRange addr vals.length) || vals.length == 0 then
    (.error .illegalDataAddress, b)
  else if vals.length > MAX_WRITE_COUNT then
    (.error .illegalDataValue, b)
  else
    (.ok (), b.setRaw addr vals)

/-- One entry reported to the logging collaborator, carrying the operation
kind, the address, and the count or values
(`LoggingDataBlock.setValues` / `LoggingDataBlock.getValues`,
modbus_echo_server.py lines 34-46). -/
inductive LogEvent where
  | writeEv (address : Int) (values : List Nat)
  | readEv (address : Int) (count : Nat) (values : List Nat)
deriving DecidableEq

/-- `LoggingDataBlock.setValues` (modbus_echo_server.py lines 34-40): log a
WRITE event with the address and values, then delegate to the plain
block's update. -/
def LoggingDataBlock.setValues (b : Bank) (addr : Int) (vals : List Nat) :
    Bank × List LogEvent :=
  (b.setRaw addr vals, [LogEvent.writeEv addr vals])

/-- `LoggingDataBlock.getValues` (modbus_echo_server.py lines 42-46):
delegate to the plain block's slice, log a READ event with the address,
count and values, and return the values unchanged. -/
def LoggingDataBlock.getValues (b : Bank) (addr : Int) (count : Nat) :
    List Nat × List LogEvent :=
  let values := b.getRaw addr count
  (values, [LogEvent.readEv addr count values])

/-- The four register bank kinds of a slave context
(modbus_echo_server.py lines 59-64). -/
inductive BankKind where
  | di
  | co
  | hr
  | ir
deriving DecidableEq

/-- The slave's store: one bank per kind (modbus_echo_server.py lines
59-64, `ModbusSlaveContext`). -/
structure SlaveStore where
  di : Bank
  co : Bank
  hr : Bank
  ir : Bank
deriving DecidableEq

def SlaveStore.bank (s : SlaveStore) : BankKind → Bank
  | .di => s.di
  | .co => s.co
  | .hr => s.hr
  | .ir => s.ir

def SlaveStore.setBank (s : SlaveStore) : BankKind → Bank → SlaveStore
  | .di, b => { s with di := b }
  | .co, b => { s with co := b }
  | .hr, b => { s with hr := b }
  | .ir, b => { s with ir := b }

/-- Which banks were constructed as `LoggingDataBlock` in `run_server`
(modbus_echo_server.py lines 59-64): only the holding-register bank; the
discrete-input, coil and input-register banks are plain
`ModbusSequentialDataBlock`s. -/
def SlaveStore.isLogging : BankKind → Bool
  | .hr => true
  | _ => false

/-- A store-level read: validate, then call the bank's `getValues` — the
logging override when the bank is a `LoggingDataBlock`, the plain slice
otherwise.  Returns the result together with the log events emitted. -/
def SlaveStore.readBank (s : SlaveStore) (k : BankKind) (addr : Int)
    (count : Nat) : Except ExceptionCode (List Nat) × List LogEvent :=
  match Bank.read (s.bank k) addr count with
  | .ok _ =>
      if SlaveStore.isLogging k then
        let r := LoggingDataBlock.getValues (s.bank k) addr count
        (.ok r.1, r.2)
      else
        (.ok ((s.bank k).getRaw addr count), [])
  | .error e => (.error e, [])

/-- A store-level write: validate, then call the bank's `setValues` — the
logging override when the bank is a `LoggingDataBlock`, the plain update
otherwise.  Returns the result, the updated store, and the log events. -/
def SlaveStore.writeBank (s : SlaveStore) (k : BankKind) (addr : Int)
    (vals : List Nat) :
    (Except ExceptionCode Unit × SlaveStore) × List LogEvent :=
  match Bank.write (s.bank k) addr vals with
  | (.ok _, _) =>
      if SlaveStore.isLogging k then
        let r := LoggingDataBlock.setValues (s.bank k) addr vals
        ((.ok (), s.setBank k r.1), r.2)
      else
        ((.ok (), s.setBank k ((s.bank k).setRaw addr vals)), [])
  | (.error e, _) => ((.error e, s), [])

/-- Server register configuration (modbus_echo_server.py lines 26-28). -/
def REGISTER_COUNT : Nat := 200

def INITIAL_VALUE : Nat := 1000

/-- The holding-register bank as constructed at startup
(modbus_echo_server.py line 62): base address 0, 200 registers with
values `INITIAL_VALUE + i`. -/
def initialHolding : Bank :=
  ⟨(List.range REGISTER_COUNT).map fun i => INITIAL_VALUE + i⟩

/-- The slave store as constructed at startup (modbus_echo_server.py
lines 59-64): zeroed di/co/ir banks, the `initialHolding` bank for hr. -/
def initialStore : SlaveStore :=
  { di := ⟨List.replicate REGISTER_COUNT 0⟩
  , co := ⟨List.replicate REGISTER_COUNT 0⟩
  , hr := initialHolding
  , ir := ⟨List.replicate REGISTER_COUNT 0⟩ }

-- Helper lemmas about the bank model.

theorem Bank.validRange_eq_false {b : Bank} {addr : Int} {count : Nat}
    (h : addr < 0 ∨ (b.values.length : Int) < addr + count) :
    b.validRange addr count = false := by
  unfold Bank.validRange
  rcases h with h | h
  · simp [decide_eq_false_iff_not]
    omega
  · simp [decide_eq_false_iff_not]
    omega

theorem Bank.validRange_eq_true {b : Bank} {addr : Int} {count : Nat}
    (h0 : 0 ≤ addr) (h1 : addr + count ≤ (b.values.length : Int)) :
    b.validRange addr count = true := by
  unfold Bank.validRange
  simp only [Bool.and_eq_true, decide_eq_true_eq]
  exact ⟨h0, h1⟩

theorem Bank.length_setRaw {b : Bank} {addr : Int} {vals : List Nat}
    (h0 : 0 ≤ addr)
    (h : addr + vals.length ≤ (b.values.length : Int)) :
    (b.setRaw addr vals).values.length = b.values.length := by
  have hn : (addr.toNat : Int) = addr := Int.toNat_of_nonneg h0
  have hle : addr.toNat + vals.length ≤ b.values.length := by omega
  simp [Bank.setRaw, List.length_take, List.length_drop]
  omega

/-- Claim C1: write-read round trip on the register store — for every
legal address `addr` of a bank and every uint16 value `v`, writing `[v]`
at `addr` and then reading one register at `addr` on the same bank
returns exactly `[v]`. -/
theorem c1_write_read_round_trip (b : Bank) (addr : Int) (v : Nat)
    (h0 : 0 ≤ addr) (h1 : addr + 1 ≤ (b.values.length : Int))
    (hv : v < 65536) :
    (Bank.write b addr [v]).1 = .ok () ∧
    Bank.read (Bank.write b addr [v]).2 addr 1 = .ok [v] := by
  have hvr : b.validRange addr 1 = true := by
    apply Bank.validRange_eq_true h0
    simpa using h1
  have hw : Bank.write b addr [v] = (.ok (), b.setRaw addr [v]) := by
    simp [Bank.write, hvr, MAX_WRITE_COUNT]
  have hn : (addr.toNat : Int) = addr := Int.toNat_of_nonneg h0
  have hlen : (b.setRaw addr [v]).values.length = b.values.length := by
    apply Bank.length_setRaw h0
    simpa using h1
  have hvr2 : (b.setRaw addr [v]).validRange addr 1 = true := by
    apply Bank.validRange_eq_true h0
    rw [hlen]
    simpa using h1
  have hget : (b.setRaw addr [v]).getRaw addr 1 = [v] := by
    unfold Bank.getRaw Bank.setRaw
    have htl : (b.values.take addr.toNat).length = addr.toNat := by
      simp [List.length_take]
      omega
    rw [List.append_assoc, List.drop_left' htl]
    rfl
  rw [hw]
  refine ⟨rfl, ?_⟩
  simp [Bank.read, hvr2, hget, MAX_READ_COUNT]

/-- Witness for claim C1 at a concrete bank, address and value. -/
theorem c1_write_read_round_trip_witness :
    (Bank.write ⟨[5, 6, 7]⟩ 1 [42]).1 = .ok () ∧
    Bank.read (Bank.write ⟨[5, 6, 7]⟩ 1 [42]).2 1 1 = .ok [42] :=
  c1_write_read_round_trip ⟨[5, 6, 7]⟩ 1 42 (by decide) (by decide)
    (by decide)

/-- Claim C2: out-of-bounds rejection with no state change — for every
bank and every (address, count) with `address + count > len` or
`address < 0`, both read and write fail with ILLEGAL_DATA_ADDRESS and the
bank afterwards equals the bank before; additionally a read with count 0
fails with ILLEGAL_DATA_ADDRESS. -/
theorem c2_out_of_bounds_rejection :
    (∀ (b : Bank) (addr : Int) (count : Nat) (vs : List Nat),
        vs.length = count →
        (addr < 0 ∨ (b.values.length : Int) < addr + count) →
        Bank.read b addr count = .error .illegalDataAddress ∧
        Bank.write b addr vs = (.error .illegalDataAddress, b)) ∧
    (∀ (b : Bank) (addr : Int),
        Bank.read b addr 0 = .error .illegalDataAddress) := by
  constructor
  · intro b addr count vs hlen hoob
    subst hlen
    have hvr : b.validRange addr vs.length = false :=
      Bank.validRange_eq_false hoob
    constructor
    · simp [Bank.read, hvr]
    · simp [Bank.write, hvr]
  · intro b addr
    simp [Bank.read]

/-- Witness for claim C2 at a concrete bank and out-of-bounds range. -/
theorem c2_out_of_bounds_rejection_witness :
    (Bank.read ⟨[0, 0]⟩ 1 5 = .error .illegalDataAddress ∧
     Bank.write ⟨[0, 0]⟩ 1 [1, 2, 3, 4, 5] =
       (.error .illegalDataAddress, ⟨[0, 0]⟩)) ∧
    Bank.read ⟨[0, 0]⟩ 1 0 = .error .illegalDataAddress :=
  ⟨c2_out_of_bounds_rejection.1 ⟨[0, 0]⟩ 1 5 [1, 2, 3, 4, 5] rfl
      (Or.inr (by decide)),
   c2_out_of_bounds_rejection.2 ⟨[0, 0]⟩ 1⟩

/-- Counterexample for claim C7: on the holding bank as configured at
startup (200 registers from address 0 valued 1000 + i), reading one
register at address 100 returns [1100], not [1000]. -/
theorem c7_counterexample :
    Bank.read initialHolding 100 1 = .ok [1100] ∧
    ¬ Bank.read initialHolding 100 1 = .ok [1000] := by
  have h1 : Bank.read initialHolding 100 1 = .ok [1100] := rfl
  refine ⟨h1, fun h => ?_⟩
  rw [h1] at h
  simp at h

/-- Amended claim C7: on the startup holding bank (200 registers from
address 0 with values 1000 + i), before any write `read(100, 1)` returns
[1100]; after `write(100, 1100)` succeeds, `read(100, 1)` returns
[1100]. -/
theorem c7_amended_scenario :
    Bank.read initialHolding 100 1 = .ok [1100] ∧
    (Bank.write initialHolding 100 [1100]).1 = .ok () ∧
    Bank.read (Bank.write initialHolding 100 [1100]).2 100 1 =
      .ok [1100] :=
  ⟨rfl, rfl, rfl⟩

/-- Claim C9: the logging wrapper is value-transparent — `getValues`
returns exactly the sequence the plain block would return, and
`setValues` leaves the block in exactly the state the plain block
would. -/
theorem c9_logging_value_transparent (b : Bank) (addr : Int) (count : Nat)
    (vals : List Nat) :
    (LoggingDataBlock.getValues b addr count).1 = b.getRaw addr count ∧
    (LoggingDataBlock.setValues b addr vals).1 = b.setRaw addr vals :=
  ⟨rfl, rfl⟩

/-- Counterexample for claim C3: only the holding-register bank of the
startup store is a LoggingDataBlock, so a successful read on the
discrete-input bank is not reported to the logging collaborator at
all. -/
theorem c3_counterexample :
    ¬ (∀ (k : BankKind) (addr : Int) (count : Nat) (vs : List Nat),
        (initialStore.readBank k addr count).1 = .ok vs →
        (initialStore.readBank k addr count).2 ≠ []) := by
  intro h
  exact h BankKind.di 0 1 [0] rfl rfl

/-- Amended claim C3: only the holding-register bank's operations are
reported — a validated read or write on the holding bank emits exactly
one log event carrying the operation kind, address, and count/values,
while operations on the discrete-input, coil, and input-register banks
emit no log event. -/
theorem c3_amended_only_holding_logs (s : SlaveStore) (addr : Int)
    (count : Nat) (vals : List Nat) :
    ((s.readBank .hr addr count).1 =
        .ok ((s.bank .hr).getRaw addr count) →
      (s.readBank .hr addr count).2 =
        [LogEvent.readEv addr count ((s.bank .hr).getRaw addr count)]) ∧
    (∀ k, k ≠ BankKind.hr → (s.readBank k addr count).2 = []) ∧
    ((s.writeBank .hr addr vals).1.1 = .ok () →
      (s.writeBank .hr addr vals).2 = [LogEvent.writeEv addr vals]) ∧
    (∀ k, k ≠ BankKind.hr → (s.writeBank k addr vals).2 = []) := by
  refine ⟨?_, ?_, ?_, ?_⟩
  · intro hok
    cases hread : Bank.read (s.bank .hr) addr count with
    | ok vs =>
        simp [SlaveStore.readBank, hread, SlaveStore.isLogging,
          LoggingDataBlock.getValues]
    | error e =>
        simp [SlaveStore.readBank, hread] at hok
  · intro k hk
    cases hread : Bank.read (s.bank k) addr count <;>
      cases k <;>
        simp_all [SlaveStore.readBank, SlaveStore.isLogging]
  · intro hok
    rcases hwrite : Bank.write (s.bank .hr) addr vals with ⟨res, b2⟩
    cases res with
    | ok u =>
        simp [SlaveStore.writeBank, hwrite, SlaveStore.isLogging,
          LoggingDataBlock.setValues]
    | error e =>
        simp [SlaveStore.writeBank, hwrite] at hok
  · intro k hk
    rcases hwrite : Bank.write (s.bank k) addr vals with ⟨res, b2⟩
    cases res <;>
      cases k <;>
        simp_all [SlaveStore.writeBank, SlaveStore.isLogging]

/-- Witness for the amended claim C3 on the startup store. -/
theorem c3_amended_only_holding_logs_witness :
    (initialStore.readBank BankKind.hr 0 2).2 =
      [LogEvent.readEv 0 2 [1000, 1001]] ∧
    (initialStore.readBank BankKind.di 0 2).2 = [] := by
  constructor
  · exact ((c3_amended_only_holding_logs initialStore 0 2 []).1 rfl).trans
      rfl
  · exact (c3_amended_only_holding_logs initialStore 0 2 []).2.1
      BankKind.di (by decide)

/-- Failure detail categories recorded by the tester, abstracting the
distinct reason strings built in modbus_client_tester.py: a Modbus error
reply on the case's own request ("Modbus error: ..."), a protocol error
on the write-read-verify read-back ("Read error: ..."), a value mismatch
("Value mismatch: wrote w, read g"), a raised transport-level exception
("Exception: ..."), and a normal reply where a rejection was expected
("Should have failed but got: ..."). -/
inductive Detail where
  | modbusError
  | readError
  | valueMismatch (wrote : Nat) (got : Nat)
  | exceptionRaised
  | shouldHaveFailed (got : List Nat)
deriving DecidableEq

/-- Outcome of one request/response round trip as seen by a test case:
a normal reply carrying the response registers, a Modbus error reply
(`result.isError()` is true), or a transport-level exception raised
during the call. -/
inductive Reply where
  | ok (registers : List Nat)
  | err
  | exc
deriving DecidableEq

/-- The `TestResult` recorder (modbus_client_tester.py lines 29-57):
pass/fail counters and the list of failure entries, each an entry
"name: reason" modelled as a (name, reason) pair. -/
structure TestResult where
  passed : Nat
  failed : Nat
  errors : List (String × Detail)
deriving DecidableEq

/-- `TestResult.__init__`: zero counters, empty error list. -/
def initResult : TestResult := ⟨0, 0, []⟩

/-- `TestResult.success` (lines 35-37): increment the passed counter. -/
def TestResult.success (t : TestResult) (name : String) : TestResult :=
  { t with passed := t.passed + 1 }

/-- `TestResult.failure` (lines 39-42): increment the failed counter and
append the failure entry. -/
def TestResult.failure (t : TestResult) (name : String) (reason : Detail) :
    TestResult :=
  { t with failed := t.failed + 1, errors := t.errors ++ [(name, reason)] }

/-- `TestResult.summary` (lines 44-57): print the totals and return
whether no case failed.  The method only reads the fields, so it is a
pure function here. -/
def TestResult.summary (t : TestResult) : Bool := t.failed == 0

/-- `test_single_register_read` (lines 73-85): on a Modbus error reply or
a raised exception record a failure and return no value; on a normal
reply record a success and return `registers[0]` (an empty register list
makes the indexing raise, caught as an exception failure). -/
def test_single_register_read (r : Reply) (t : TestResult) :
    TestResult × Option Nat :=
  match r with
  | .ok [] => (t.failure "Single Register Read" .exceptionRaised, none)
  | .ok (v :: _) => (t.success "Single Register Read", some v)
  | .err => (t.failure "Single Register Read" .modbusError, none)
  | .exc => (t.failure "Single Register Read" .exceptionRaised, none)

/-- `test_single_register_write` (lines 88-100): record success/failure
and return whether the write went through. -/
def test_single_register_write (r : Reply) (t : TestResult) :
    TestResult × Bool :=
  match r with
  | .ok _ => (t.success "Single Register Write", true)
  | .err => (t.failure "Single Register Write" .modbusError, false)
  | .exc => (t.failure "Single Register Write" .exceptionRaised, false)

/-- `test_multiple_register_read` (lines 103-115): record success/failure
and return the register list when the read succeeded. -/
def test_multiple_register_read (r : Reply) (t : TestResult) :
    TestResult × Option (List Nat) :=
  match r with
  | .ok vs => (t.success "Multiple Register Read", some vs)
  | .err => (t.failure "Multiple Register Read" .modbusError, none)
  | .exc => (t.failure "Multiple Register Read" .exceptionRaised, none)

/-- `test_multiple_register_write` (lines 118-130): record success/failure
and return whether the write went through. -/
def test_multiple_register_write (r : Reply) (t : TestResult) :
    TestResult × Bool :=
  match r with
  | .ok _ => (t.success "Multiple Register Write", true)
  | .err => (t.failure "Multiple Register Write" .modbusError, false)
  | .exc => (t.failure "Multiple Register Write" .exceptionRaised, false)

/-- Sentinel written by the write-read-verify case
(modbus_client_tester.py line 136). -/
def WRV_TEST_VALUE : Nat := 9999

/-- `test_write_read_verify` (lines 133-157): write the sentinel via
`test_single_register_write` (which records its own outcome) and return
early if that failed; then read back and record a distinct outcome —
"Read error" on a Modbus error reply, a value-mismatch failure when the
value read differs from the sentinel, success when it matches, and an
exception failure when the read raised. -/
def test_write_read_verify (w : Reply) (r : Reply) (t : TestResult) :
    TestResult :=
  let s := test_single_register_write w t
  if !s.2 then
    s.1
  else
    match r with
    | .ok [] => s.1.failure "Write-Read-Verify" .exceptionRaised
    | .ok (v :: _) =>
        if v == WRV_TEST_VALUE then
          s.1.success "Write-Read-Verify"
        else
          s.1.failure "Write-Read-Verify" (.valueMismatch WRV_TEST_VALUE v)
    | .err => s.1.failure "Write-Read-Verify" .readError
    | .exc => s.1.failure "Write-Read-Verify" .exceptionRaised

/-- `test_boundary_addresses` (lines 160-181): two single-register reads,
at the first and at the last configured address, each recorded
separately. -/
def test_boundary_addresses (r1 r2 : Reply) (t : TestResult) :
    TestResult :=
  let t1 :=
    match r1 with
    | .ok [] => t.failure "Boundary Test - First Register" .exceptionRaised
    | .ok (_ :: _) => t.success "Boundary Test - First Register"
    | .err => t.failure "Boundary Test - First Register" .modbusError
    | .exc => t.failure "Boundary Test - First Register" .exceptionRaised
  match r2 with
  | .ok [] => t1.failure "Boundary Test - Last Register" .exceptionRaised
  | .ok (_ :: _) => t1.success "Boundary Test - Last Register"
  | .err => t1.failure "Boundary Test - Last Register" .modbusError
  | .exc => t1.failure "Boundary Test - Last Register" .exceptionRaised

/-- `test_invalid_address` (lines 184-194): a Modbus error reply or a
raised exception is recorded as a pass, a normal reply as a failure. -/
def test_invalid_address (r : Reply) (t : TestResult) : TestResult :=
  match r with
  | .ok vs => t.failure "Invalid Address Test" (.shouldHaveFailed vs)
  | .err => t.success "Invalid Address Test"
  | .exc => t.success "Invalid Address Test"

/-- Identifiers for the recorded test cases of `run_tests`, in their
fixed order (modbus_client_tester.py lines 223-245); the connectivity
gate (line 216) is separate and records no outcome. -/
inductive CaseId where
  | singleRead
  | multiRead
  | singleWrite
  | multiWrite
  | writeReadVerify
  | boundary
  | invalidAddr
deriving DecidableEq

/-- The replies the wire delivers for each round trip of one run, in the
order the orchestrator issues them. -/
structure Env where
  connectOk : Bool
  singleRead : Reply
  multiRead : Reply
  singleWrite : Reply
  multiWrite : Reply
  wrvWrite : Reply
  wrvRead : Reply
  boundaryFirst : Reply
  boundaryLast : Reply
  invalidRead : Reply
deriving DecidableEq

/-- What one run of the orchestrator produces: the boolean returned by
`run_tests`, the final recorder state, and the list of cases that
actually executed. -/
structure RunOutcome where
  overall : Bool
  result : TestResult
  executed : List CaseId
deriving DecidableEq

/-- `run_tests` (lines 197-258): abort returning false when the
connection fails (no case executes); otherwise run the fixed sequence —
single read, multi read, single write (only when the single read
returned a value), multi write, write-read-verify, boundary reads,
invalid-address test — then return `summary()`. -/
def run_tests (env : Env) : RunOutcome :=
  if env.connectOk then
    let s1 := test_single_register_read env.singleRead initResult
    let t2 := (test_multiple_register_read env.multiRead s1.1).1
    let t3 :=
      if s1.2.isSome then (test_single_register_write env.singleWrite t2).1
      else t2
    let ex3 : List CaseId := if s1.2.isSome then [.singleWrite] else []
    let t4 := (test_multiple_register_write env.multiWrite t3).1
    let t5 := test_write_read_verify env.wrvWrite env.wrvRead t4
    let t6 := test_boundary_addresses env.boundaryFirst env.boundaryLast t5
    let t7 := test_invalid_address env.invalidRead t6
    ⟨t7.summary, t7,
      [.singleRead, .multiRead] ++ ex3 ++
        [.multiWrite, .writeReadVerify, .boundary, .invalidAddr]⟩
  else
    ⟨false, initResult, []⟩

/-- `main` (lines 261-268): exit code 0 when `run_tests` returned true,
1 otherwise. -/
def mainExitCode (env : Env) : Nat :=
  if (run_tests env).overall then 0 else 1

/-- Claim C4: in the invalid-address test case, a Modbus exception reply
or a raised transport-level exception records a pass, while a normal
register value records a failure. -/
theorem c4_invalid_address_case (r : Reply) (t : TestResult) :
    ((r = Reply.err ∨ r = Reply.exc) →
      (test_invalid_address r t).passed = t.passed + 1 ∧
      (test_invalid_address r t).failed = t.failed) ∧
    (∀ vs, r = Reply.ok vs →
      (test_invalid_address r t).failed = t.failed + 1 ∧
      (test_invalid_address r t).passed = t.passed) := by
  cases r <;>
    simp [test_invalid_address, TestResult.success, TestResult.failure]

/-- Witness for claim C4 at a concrete reply and recorder state. -/
theorem c4_invalid_address_case_witness :
    (test_invalid_address Reply.err initResult).passed =
      initResult.passed + 1 ∧
    (test_invalid_address Reply.err initResult).failed =
      initResult.failed :=
  (c4_invalid_address_case Reply.err initResult).1 (Or.inl rfl)

/-- A wire environment where the connection succeeds, the single-read
case receives a Modbus error reply (so it records a failure and returns
no value), and every other round trip succeeds. -/
def c5Env : Env :=
  { connectOk := true
  , singleRead := .err
  , multiRead := .ok [1000, 1001, 1002, 1003, 1004]
  , singleWrite := .ok []
  , multiWrite := .ok []
  , wrvWrite := .ok []
  , wrvRead := .ok [9999]
  , boundaryFirst := .ok [1000]
  , boundaryLast := .ok [1009]
  , invalidRead := .err }

/-- Counterexample for claim C5: in `c5Env` the single-read case records
the only failure of the run, yet the single-write case never executes —
so a failure of a non-connectivity case does prevent a later case from
running. -/
theorem c5_counterexample :
    (run_tests c5Env).result.errors =
      [("Single Register Read", Detail.modbusError)] ∧
    ¬ CaseId.singleWrite ∈ (run_tests c5Env).executed := by
  constructor
  · rfl
  · decide

/-- Amended claim C5: after a successful connectivity gate every case
except the single-write case executes regardless of earlier failures;
the single-write case executes exactly when the single-read case
returned a value (it is skipped when the single read failed); when the
connectivity gate fails no case executes. -/
theorem c5_amended_case_sequencing (env : Env)
    (h : env.connectOk = true) :
    (∀ c, c ≠ CaseId.singleWrite → c ∈ (run_tests env).executed) ∧
    (CaseId.singleWrite ∈ (run_tests env).executed ↔
      (test_single_register_read env.singleRead initResult).2.isSome =
        true) ∧
    (∀ env' : Env, env'.connectOk = false →
      (run_tests env').executed = []) := by
  have hex : (run_tests env).executed =
      [.singleRead, .multiRead] ++
        (if (test_single_register_read env.singleRead
              initResult).2.isSome then [CaseId.singleWrite] else []) ++
        [.multiWrite, .writeReadVerify, .boundary, .invalidAddr] := by
    simp [run_tests, h]
  refine ⟨?_, ?_, ?_⟩
  · intro c hc
    rw [hex]
    cases hs : (test_single_register_read env.singleRead
        initResult).2.isSome <;>
      cases c <;> simp_all
  · rw [hex]
    cases hs : (test_single_register_read env.singleRead
        initResult).2.isSome <;>
      simp_all
  · intro env' h'
    simp [run_tests, h']

/-- Witness for the amended claim C5 on the concrete environment. -/
theorem c5_amended_case_sequencing_witness :
    CaseId.invalidAddr ∈ (run_tests c5Env).executed :=
  (c5_amended_case_sequencing c5Env rfl).1 CaseId.invalidAddr (by decide)

/-- Claim C6: the process exit code is 0 iff the connectivity gate
succeeded and the recorded failed count is 0; it is nonzero when any
executed case recorded a failure or the connection was not
established. -/
theorem c6_exit_code (env : Env) :
    mainExitCode env = 0 ↔
      (env.connectOk = true ∧ (run_tests env).result.failed = 0) := by
  unfold mainExitCode
  cases hc : env.connectOk with
  | false => simp [run_tests, hc]
  | true =>
      have hov : (run_tests env).overall =
          ((run_tests env).result.failed == 0) := by
        simp [run_tests, hc, TestResult.summary]
      rw [hov]
      by_cases hf : (run_tests env).result.failed = 0 <;> simp [hf, hc]

/-- Claim C8: in the write-read-verify case, when the write and the
read-back both complete without protocol or transport error but the
value read differs from the sentinel, the recorded failure carries a
value-mismatch detail distinct from the protocol-error and
transport-error details; when the value read equals the sentinel, a
success is recorded. -/
theorem c8_write_read_verify_mismatch (t : TestResult) (v : Nat)
    (wRegs rest : List Nat) :
    (v ≠ WRV_TEST_VALUE →
      test_write_read_verify (Reply.ok wRegs) (Reply.ok (v :: rest)) t =
        (t.success "Single Register Write").failure "Write-Read-Verify"
          (Detail.valueMismatch WRV_TEST_VALUE v) ∧
      (∀ w g, Detail.valueMismatch w g ≠ Detail.readError ∧
        Detail.valueMismatch w g ≠ Detail.exceptionRaised ∧
        Detail.valueMismatch w g ≠ Detail.modbusError)) ∧
    (v = WRV_TEST_VALUE →
      test_write_read_verify (Reply.ok wRegs) (Reply.ok (v :: rest)) t =
        (t.success "Single Register Write").success
          "Write-Read-Verify") := by
  constructor
  · intro hv
    refine ⟨?_, fun w g => ⟨by simp, by simp, by simp⟩⟩
    simp [test_write_read_verify, test_single_register_write, hv]
  · intro hv
    simp [test_write_read_verify, test_single_register_write, hv]

/-- Witness for claim C8 at a concrete mismatching read-back value. -/
theorem c8_write_read_verify_mismatch_witness :
    test_write_read_verify (Reply.ok []) (Reply.ok [5]) initResult =
      (initResult.success "Single Register Write").failure
        "Write-Read-Verify" (Detail.valueMismatch WRV_TEST_VALUE 5) :=
  ((c8_write_read_verify_mismatch initResult 5 [] []).1 (by decide)).1

/-- One call made to the recorder over its lifetime. -/
inductive RecCall where
  | succ (name : String)
  | fail (name : String) (reason : Detail)
deriving DecidableEq

def RecCall.isSucc : RecCall → Bool
  | .succ _ => true
  | .fail _ _ => false

def RecCall.isFail : RecCall → Bool
  | .succ _ => false
  | .fail _ _ => true

def RecCall.failEntry : RecCall → Option (String × Detail)
  | .succ _ => none
  | .fail n r => some (n, r)

/-- Replaying one recorder call. -/
def applyCall (t : TestResult) : RecCall → TestResult
  | .succ n => t.success n
  | .fail n r => t.failure n r

/-- Replaying a call sequence against a fresh recorder. -/
def runCalls (cs : List RecCall) : TestResult :=
  cs.foldl applyCall initResult

theorem foldl_applyCall (cs : List RecCall) (t : TestResult) :
    (cs.foldl applyCall t).passed =
        t.passed + (cs.filter RecCall.isSucc).length ∧
    (cs.foldl applyCall t).failed =
        t.failed + (cs.filter RecCall.isFail).length ∧
    (cs.foldl applyCall t).errors =
        t.errors ++ cs.filterMap RecCall.failEntry := by
  induction cs generalizing t with
  | nil => simp
  | cons c rest ih =>
      obtain ⟨h1, h2, h3⟩ := ih (applyCall t c)
      simp only [List.foldl_cons]
      cases c with
      | succ n =>
          refine ⟨?_, ?_, ?_⟩
          · rw [h1]
            simp [applyCall, TestResult.success, RecCall.isSucc]
            omega
          · rw [h2]
            simp [applyCall, TestResult.success, RecCall.isFail]
          · rw [h3]
            simp [applyCall, TestResult.success, RecCall.failEntry]
      | fail n r =>
          refine ⟨?_, ?_, ?_⟩
          · rw [h1]
            simp [applyCall, TestResult.failure, RecCall.isSucc]
          · rw [h2]
            simp [applyCall, TestResult.failure, RecCall.isFail]
            omega
          · rw [h3]
            simp [applyCall, TestResult.failure, RecCall.failEntry]

theorem length_failEntry_eq_isFail (cs : List RecCall) :
    (cs.filterMap RecCall.failEntry).length =
      (cs.filter RecCall.isFail).length := by
  induction cs with
  | nil => rfl
  | cons c rest ih =>
      cases c <;> simp [RecCall.failEntry, RecCall.isFail, ih]

/-- Claim C10: recorder invariant — after any sequence of success and
failure calls, passed equals the number of success calls, failed equals
the number of failure calls, the error list has exactly one entry per
failure call in call order (so its length equals failed), and summary
returns true iff failed is 0 (it only reads the fields, modelled as a
pure function). -/
theorem c10_recorder_invariant (cs : List RecCall) :
    (runCalls cs).passed = (cs.filter RecCall.isSucc).length ∧
    (runCalls cs).failed = (cs.filter RecCall.isFail).length ∧
    (runCalls cs).errors = cs.filterMap RecCall.failEntry ∧
    (runCalls cs).errors.length = (runCalls cs).failed ∧
    ((runCalls cs).summary = true ↔ (runCalls cs).failed = 0) := by
  obtain ⟨h1, h2, h3⟩ := foldl_applyCall cs initResult
  have hp : (runCalls cs).passed = (cs.filter RecCall.isSucc).length := by
    simpa [runCalls, initResult] using h1
  have hf : (runCalls cs).failed = (cs.filter RecCall.isFail).length := by
    simpa [runCalls, initResult] using h2
  have he : (runCalls cs).errors = cs.filterMap RecCall.failEntry := by
    simpa [runCalls, initResult] using h3
  refine ⟨hp, hf, he, ?_, ?_⟩
  · rw [he, hf, length_failEntry_eq_isFail]
  · simp [TestResult.summary]
